import Mathlib

/-!
Verification of the Gnani web-voice-hook library.

This file gives a shallow embedding of the audio codec
(`src/webVoiceUtils.ts`) and of the `useWebSocketAudio` hook
(`src/useWebVoice.ts`): pure codec functions become functions on
`List ℚ` / `List ℤ` / `List Nat` (JS doubles are modelled by exact
rationals, Int16Array entries by integers, bytes by naturals), and the
hook's mutable refs, React state and WebSocket callbacks become an
explicit state record `St` with a step function over external events.
Theorems at the end check the specification's claims C1-C10.
-/

/-! ## Constants (useWebVoice.ts / webVoiceUtils.ts) -/

def SAMPLE_RATE : Nat := 44100

def CHANNELS : Nat := 1

def BITS_PER_SAMPLE : Nat := 16

/-- `const BUFFER_DURATION = 1; // Buffer duration in seconds` -/
def BUFFER_DURATION : Nat := 1

/-- `const bufferSize = SAMPLE_RATE * CHANNELS * BUFFER_DURATION;` -/
def bufferSize : Nat := SAMPLE_RATE * CHANNELS * BUFFER_DURATION

/-! ## Codec: float/PCM conversions (webVoiceUtils.ts) -/

/-- `Math.max(-1, Math.min(1, float32Array[i]))` -/
def clamp1 (x : ℚ) : ℚ := max (-1) (min 1 x)

/-- JavaScript `ToInt16` truncation toward zero (no wrap needed here:
all values written are already in the Int16 range). -/
def truncZ (q : ℚ) : ℤ := if q < 0 then -⌊-q⌋ else ⌊q⌋

/-- One sample of `floatTo16BitPCM`:
`int16Array[i] = s < 0 ? s * 0x8000 : s * 0x7fff;` -/
def floatTo16BitPCM1 (x : ℚ) : ℤ :=
  if clamp1 x < 0 then truncZ (clamp1 x * 0x8000) else truncZ (clamp1 x * 0x7fff)

/-- `floatTo16BitPCM` over a whole buffer. -/
def floatTo16BitPCM (xs : List ℚ) : List ℤ := xs.map floatTo16BitPCM1

/-- One sample of `convertPCMDataToFloat32`:
`float32Data[i] = pcm16Data[i] / (pcm16Data[i] < 0 ? 0x8000 : 0x7fff);` -/
def convertPCMDataToFloat321 (v : ℤ) : ℚ :=
  if v < 0 then (v : ℚ) / 0x8000 else (v : ℚ) / 0x7fff

/-- `convertPCMDataToFloat32` over a whole buffer. -/
def convertPCMDataToFloat32 (vs : List ℤ) : List ℚ :=
  vs.map convertPCMDataToFloat321

/-- Decode-after-encode of a single normalized float sample
(`convertPCMDataToFloat32` applied to the output of `floatTo16BitPCM`). -/
def pcmRoundTrip (x : ℚ) : ℚ := convertPCMDataToFloat321 (floatTo16BitPCM1 x)

/-! ## Codec: mu-law companding (webVoiceUtils.ts, linearToMuLaw) -/

/-- The exponent search loop of `linearToMuLaw`:
`for (; exponent > 0; exponent--) { if (sample & 0x4000) break; sample <<= 1; }`.
Returns the final `(exponent, sample)` pair. -/
def muLawLoop : Nat → Nat → Nat × Nat
  | 0, s => (0, s)
  | e + 1, s => if s &&& 0x4000 ≠ 0 then (e + 1, s) else muLawLoop e (s <<< 1)

/-- One sample of `linearToMuLaw` (BIAS 0x84, CLIP 32635).  The JS
`~ulawByte & 0xff` on the 8-bit quantity equals xor with 255. -/
def linearToMuLaw1 (pcm : ℤ) : Nat :=
  let sign : Nat := if pcm < 0 then 0x80 else 0
  let mag : ℤ := if pcm < 0 then -pcm else pcm
  let clipped : Nat := (min mag 32635).toNat
  let biased : Nat := clipped + 0x84
  let p := muLawLoop 7 biased
  let mantissa : Nat := (p.2 >>> 9) &&& 0x0f
  255 ^^^ ((sign ||| (p.1 <<< 4)) ||| mantissa)

/-- `linearToMuLaw` over a whole PCM buffer. -/
def linearToMuLaw (pcm : List ℤ) : List Nat := pcm.map linearToMuLaw1

/-- Modelled from the spec: the ITU-T exponent of a biased magnitude in
[0x84, 0x7fff] — the index of its top set bit minus 7 (the classic
`exp_lut` of the G.711 reference encoder). -/
def ituExponent (biased : Nat) : Nat :=
  if 0x4000 ≤ biased then 7
  else if 0x2000 ≤ biased then 6
  else if 0x1000 ≤ biased then 5
  else if 0x800 ≤ biased then 4
  else if 0x400 ≤ biased then 3
  else if 0x200 ≤ biased then 2
  else if 0x100 ≤ biased then 1
  else 0

/-- Modelled from the spec: the reference ITU-T (G.711) mu-law encoder the
spec describes ("bias constant 0x84, clip ceiling 32635, 7-bit exponent
search, 4-bit mantissa, one's-complement output with sign bit").  The
mantissa is the four bits just below the top bit of the biased magnitude,
`(biased >> (exponent + 3)) & 0x0f`.  Used only for comparison with the
source's `linearToMuLaw`. -/
def muLawITU1 (pcm : ℤ) : Nat :=
  let sign : Nat := if pcm < 0 then 0x80 else 0
  let mag : ℤ := if pcm < 0 then -pcm else pcm
  let clipped : Nat := (min mag 32635).toNat
  let biased : Nat := clipped + 0x84
  let exponent : Nat := ituExponent biased
  let mantissa : Nat := (biased >>> (exponent + 3)) &&& 0x0f
  255 ^^^ ((sign ||| (exponent <<< 4)) ||| mantissa)

/-- Reference ITU-T mu-law encoding of a whole buffer. -/
def muLawITU (pcm : List ℤ) : List Nat := pcm.map muLawITU1

/-! ## Claim C4 -/

/-- C4: "linearToMuLaw implements the ITU-T-equivalent mu-law companding
definition: for every Int16 input sample its output byte equals the
reference ITU-T mu-law encoding of that sample; in particular, on the
all-zero input every output byte equals the ITU-T mu-law code for 0."
This is FALSE on the code: on the all-zero input the source encoder
produces 0xFE = 254 while the ITU-T reference produces 0xFF = 255 (the
source takes the mantissa one bit too low, `(sample >> 9) & 0x0f` after
normalizing the top bit to position 14, instead of `(sample >> 10) & 0x0f`).
This theorem evaluates both encoders at the failing input. -/
theorem c4_mulaw_zero_divergence :
    linearToMuLaw [0] = [254] ∧ muLawITU [0] = [255] ∧
      linearToMuLaw1 0 ≠ muLawITU1 0 := by
  refine ⟨by decide, by decide, by decide⟩

/-! ## Claim C5 -/

/-- C5 counterexample: the claim "decoding the encoded sample reconstructs
x within 1/32768 absolute error" fails at
x = 2^(-15) + 2^(-31) = 65537/2147483648 (a float32-representable value):
x * 0x7fff < 1, so the sample encodes to 0 and decodes to 0, and the
error is x itself, which exceeds 1/32768. -/
theorem c5_roundtrip_counterexample :
    (1 : ℚ) / 32768 <
      |pcmRoundTrip (65537 / 2147483648 : ℚ) - 65537 / 2147483648| := by
  have hclamp : clamp1 (65537 / 2147483648 : ℚ) = 65537 / 2147483648 := by
    unfold clamp1
    rw [min_eq_right (by norm_num), max_eq_right (by norm_num)]
  have hfloor : ⌊(65537 / 2147483648 : ℚ) * 0x7fff⌋ = 0 := by
    rw [Int.floor_eq_zero_iff]
    rw [Set.mem_Ico]
    constructor <;> norm_num
  have henc : floatTo16BitPCM1 (65537 / 2147483648 : ℚ) = 0 := by
    unfold floatTo16BitPCM1
    rw [hclamp, if_neg (by norm_num)]
    unfold truncZ
    rw [if_neg (by norm_num), hfloor]
  unfold pcmRoundTrip
  rw [henc]
  unfold convertPCMDataToFloat321
  rw [if_neg (by norm_num)]
  rw [abs_sub_comm, abs_of_nonneg (by norm_num)]
  norm_num

/-- C5 (amended): for every rational sample x in [-1, 1], decoding the
encoded sample reconstructs x within 1/32767 absolute error (strictly
below; the original bound 1/32768 fails only on the positive side, where
the quantization step is 1/32767). -/
theorem c5_pcm_roundtrip_bound (x : ℚ) (h1 : -1 ≤ x) (h2 : x ≤ 1) :
    |pcmRoundTrip x - x| < 1 / 32767 := by
  have hclamp : clamp1 x = x := by
    unfold clamp1
    rw [min_eq_right h2, max_eq_right h1]
  unfold pcmRoundTrip floatTo16BitPCM1
  rw [hclamp]
  rcases lt_or_le x 0 with hneg | hpos
  · -- negative side: scale by 0x8000 = 32768
    rw [if_pos hneg]
    unfold truncZ
    have hq : x * 0x8000 < 0 := by nlinarith
    rw [if_pos hq]
    have hrw : -(x * 0x8000) = (-x) * 32768 := by ring
    rw [hrw]
    set m : ℤ := ⌊(-x) * 32768⌋ with hm
    have hm0 : 0 ≤ m := by
      rw [hm]
      exact Int.floor_nonneg.2 (by nlinarith)
    have hm1 : (m : ℚ) ≤ (-x) * 32768 := Int.floor_le _
    have hm2 : (-x) * 32768 < (m : ℚ) + 1 := Int.lt_floor_add_one _
    rcases eq_or_lt_of_le hm0 with hz | hpos'
    · -- m = 0: encoded value is 0
      have h0 : convertPCMDataToFloat321 (-m) = 0 := by
        rw [← hz]
        unfold convertPCMDataToFloat321
        norm_num
      rw [h0]
      have hx : -x < 1 / 32768 := by
        have h2' := hm2
        rw [← hz] at h2'
        push_cast at h2'
        linarith
      rw [zero_sub, abs_neg, abs_of_nonpos (le_of_lt hneg)]
      linarith
    · -- m ≥ 1: encoded value is -m < 0
      unfold convertPCMDataToFloat321
      rw [if_pos (by exact_mod_cast neg_neg_of_pos hpos')]
      have habs : |((-m : ℤ) : ℚ) / 0x8000 - x| < 1 / 32768 := by
        rw [abs_lt]
        push_cast
        constructor <;> nlinarith
      linarith [abs_nonneg (((-m : ℤ) : ℚ) / 0x8000 - x), habs]
  · -- nonnegative side: scale by 0x7fff = 32767
    rw [if_neg (by linarith)]
    unfold truncZ
    have hq : ¬ x * 0x7fff < 0 := by nlinarith
    rw [if_neg hq]
    set n : ℤ := ⌊x * 0x7fff⌋ with hn
    have hn0 : 0 ≤ n := by
      rw [hn]
      exact Int.floor_nonneg.2 (by nlinarith)
    have hn1 : (n : ℚ) ≤ x * 0x7fff := Int.floor_le _
    have hn2 : x * 0x7fff < (n : ℚ) + 1 := Int.lt_floor_add_one _
    unfold convertPCMDataToFloat321
    rw [if_neg (by exact_mod_cast not_lt.2 hn0)]
    rw [abs_of_nonpos (by nlinarith)]
    nlinarith

/-- C5 witness: the amended round-trip bound at the concrete sample 1/2. -/
theorem c5_pcm_roundtrip_bound_witness :
    |pcmRoundTrip (1 / 2 : ℚ) - 1 / 2| < 1 / 32767 :=
  c5_pcm_roundtrip_bound (1 / 2) (by norm_num) (by norm_num)

/-! ## Codec: base64 decoding and resampling (webVoiceUtils.ts) -/

/-- Value of one base64 alphabet character (`atob` rejects anything else). -/
def b64Val (c : Char) : Option Nat :=
  if 'A' ≤ c ∧ c ≤ 'Z' then some (c.toNat - 65)
  else if 'a' ≤ c ∧ c ≤ 'z' then some (c.toNat - 97 + 26)
  else if '0' ≤ c ∧ c ≤ '9' then some (c.toNat - 48 + 52)
  else if c = '+' then some 62
  else if c = '/' then some 63
  else none

/-- Decode a run of 6-bit values into bytes; a trailing group of 2 or 3
values yields 1 or 2 bytes, a trailing single value is invalid. -/
def b64Decode : List Nat → Option (List Nat)
  | [] => some []
  | a :: b :: c :: d :: rest =>
    (b64Decode rest).map fun tl =>
      ((a <<< 2 ||| b >>> 4) :: ((b &&& 0x0f) <<< 4 ||| c >>> 2) ::
        ((c &&& 0x03) <<< 6 ||| d) :: tl)
  | [a, b] => some [a <<< 2 ||| b >>> 4]
  | [a, b, c] => some [a <<< 2 ||| b >>> 4, (b &&& 0x0f) <<< 4 ||| c >>> 2]
  | [_] => none

/-- JavaScript `atob`: strip trailing padding, decode the base64 body to
bytes; `none` models the exception thrown on malformed input. -/
def atobBytes (s : String) : Option (List Nat) :=
  let body := (s.data.reverse.dropWhile (fun c => c = '=')).reverse
  (body.mapM b64Val).bind b64Decode

/-- Reinterpret a little-endian byte list as signed 16-bit samples
(`new Int16Array(buffer)` on an even-length buffer). -/
def bytesToInt16 : List Nat → List ℤ
  | lo :: hi :: rest =>
    (let v := lo + 256 * hi
     if 32768 ≤ v then (v : ℤ) - 65536 else (v : ℤ)) :: bytesToInt16 rest
  | _ => []

/-- `base64ToPCM16Data`: base64 payload to Int16 samples.  `none` models
the exceptions thrown on malformed base64 or an odd byte count (the
`Int16Array` constructor throws on a buffer of odd byte length); the
caller catches them and drops the chunk. -/
def base64ToPCM16Data (s : String) : Option (List ℤ) :=
  (atobBytes s).bind fun bytes =>
    if bytes.length % 2 = 0 then some (bytesToInt16 bytes) else none

/-- `resampleAudio`: linear-interpolation resampling, on exact rationals.
Out-of-range reads of the source array are modelled as 0. -/
def resampleAudio (xs : List ℚ) (orig target : Nat) : List ℚ :=
  let ratio : ℚ := (target : ℚ) / (orig : ℚ)
  let newLength : Nat := (⌊(xs.length : ℚ) * ratio⌋).toNat
  (List.range newLength).map fun i =>
    let position : ℚ := (i : ℚ) / ratio
    let index : Nat := (⌊position⌋).toNat
    let fraction : ℚ := position - (⌊position⌋ : ℚ)
    if xs.length - 1 ≤ index then xs.getD (xs.length - 1) 0
    else xs.getD index 0 * (1 - fraction) + xs.getD (index + 1) 0 * fraction

/-! ## Hook state (useWebVoice.ts)

The hook's refs, React state flags and owned resources become one record.
Ghost fields (`sent`, `closeCalls`, `onCloseEvents`, `onExceptionCount`,
`teardownCount`, `reloadRequested`, `emissions`) record the externally
observable actions: frames passed to `WebSocket.send` (tagged with the
socket's id), `WebSocket.close()` calls, `onClose`/`onException` callback
invocations, `cleanup` body executions, the `location.reload()` escape
hatch, and audio buffers handed to the output device. -/

/-- Cause tag passed to the `onClose` callback. -/
inductive CloseSrc
  | server
  | client
deriving DecidableEq

/-- Outbound wire frames relevant to the claims (the worklet's outbound
media frames are not modelled; no claim mentions them). -/
inductive OutFrame
  | start
  | ttsPlaying (b : Bool)
  | eoc
deriving DecidableEq

/-- Lifecycle phase of one WebSocket handle (its `readyState`). -/
inductive WsPhase
  | connecting
  | opened
  | closing
  | closedWs
deriving DecidableEq

/-- A parsed inbound message (`ISocketEventData`). -/
structure InMsg where
  event : String
  payload : Option String := none
  sample_rate : Option Nat := none
deriving DecidableEq

/-- The hook's per-connection state plus ghost observables. -/
structure St where
  nextId : Nat := 1
  websocket : Option Nat := none
  phases : List (Nat × WsPhase) := []
  isConnected : Bool := false
  isPlaying : Bool := false
  isPlayingRef : Bool := false
  isPlayingAudio : Bool := false
  isFirstChunk : Bool := true
  isAudioNodesConnected : Bool := false
  isCleanedUp : Bool := false
  isStopReceived : Bool := false
  lastSentTTSEvent : Bool := false
  chunkReceived : Bool := false
  backendSampleRate : Nat := SAMPLE_RATE
  audioBuffer : List (List ℚ) := []
  stream : Bool := false
  audioContext : Bool := false
  sourceNode : Bool := false
  analyzer : Bool := false
  workletAttached : Bool := false
  sent : List (Nat × OutFrame) := []
  closeCalls : List Nat := []
  onCloseEvents : List CloseSrc := []
  onExceptionCount : Nat := 0
  teardownCount : Nat := 0
  reloadRequested : Bool := false
  emissions : List (List ℚ) := []
deriving DecidableEq

/-- The initial state of a freshly mounted hook. -/
def stInit : St := {}

/-- Update the recorded phase of socket `i`. -/
def setPhase (ps : List (Nat × WsPhase)) (i : Nat) (ph : WsPhase) :
    List (Nat × WsPhase) :=
  ps.map fun p => if p.1 = i then (i, ph) else p

/-- Look up the recorded phase of socket `i`. -/
def getPhase (ps : List (Nat × WsPhase)) (i : Nat) : Option WsPhase :=
  (ps.find? fun p => p.1 = i).map fun p => p.2

/-- `websocketRef.current?.send(frame)`: record the frame against the
current socket if the ref is non-null, else do nothing. -/
def sendVia (s : St) (f : OutFrame) : St :=
  match s.websocket with
  | some i => { s with sent := s.sent ++ [(i, f)] }
  | none => s

/-- `ws.close()` on handle `i`: record the call and mark the handle
closing. -/
def closeWs (s : St) (i : Nat) : St :=
  { s with closeCalls := s.closeCalls ++ [i],
           phases := setPhase s.phases i .closing }

/-- `stopProcessing`: disconnect and drop the worklet and capture source
nodes (idempotent). -/
def stopProcessing (s : St) : St := { s with workletAttached := false }

/-! ## Cleanup and playback scheduling (useWebVoice.ts) -/

/-- `cleanup(source)`: idempotent teardown guarded by `isCleanedUp`.
`teardownCount` counts executions of the body; `onCloseEvents` records
`onClose` invocations. -/
def cleanup (src : CloseSrc) (s : St) : St :=
  if s.isCleanedUp then s
  else
    let s1 := { s with isCleanedUp := true, teardownCount := s.teardownCount + 1 }
    let s2 := stopProcessing s1
    let s3 :=
      match s2.websocket with
      | some i =>
        let s' :=
          if getPhase s2.phases i = some WsPhase.opened ∨
             getPhase s2.phases i = some WsPhase.connecting
          then closeWs s2 i else s2
        { s' with websocket := none }
      | none => s2
    { s3 with analyzer := false,
              audioContext := false,
              sourceNode := false,
              stream := false,
              audioBuffer := [],
              isPlayingRef := false,
              isAudioNodesConnected := false,
              isFirstChunk := true,
              isPlayingAudio := false,
              isStopReceived := false,
              isPlaying := false,
              isConnected := false,
              onCloseEvents := s3.onCloseEvents ++ [src] }

/-- The dequeue loop of `playNextChunk`:
`while (audioBufferRef.current.length > 0 && totalLength < bufferSize)`,
shifting chunks off the queue.  Returns (taken chunks, remaining queue). -/
def dequeueChunks : List (List ℚ) → Nat → List (List ℚ) × List (List ℚ)
  | [], _ => ([], [])
  | c :: rest, total =>
    if total < bufferSize then
      let p := dequeueChunks rest (total + c.length)
      (c :: p.1, p.2)
    else ([], c :: rest)

/-- `source.start()` on a freshly built buffer: the emitted audio data is
appended to the ghost `emissions` log and the source node is retained. -/
def startSource (s : St) (audioData : List ℚ) : St :=
  { s with emissions := s.emissions ++ [audioData],
           sourceNode := true,
           isPlayingRef := true }

/-- `playNextChunk` (the playback scheduler tick).  On an empty queue it
sends `TTS_PLAYING:false` and emits
`Math.floor(backendSampleRate * BUFFER_DURATION * 2)` samples of silence;
otherwise it dequeues FIFO up to the buffer threshold and emits the
concatenation, sending `TTS_PLAYING:true` on a false-to-true transition. -/
def playNextChunk (s : St) : St :=
  let s0 := { s with audioContext := true }
  if s0.isPlayingAudio then s0
  else if s0.audioBuffer = [] then
    let s1 := { s0 with isPlayingAudio := false, isPlaying := false }
    let s2 := sendVia s1 (.ttsPlaying false)
    let s3 := { s2 with lastSentTTSEvent := false }
    startSource s3 (List.replicate (s3.backendSampleRate * BUFFER_DURATION * 2) 0)
  else
    let s1 :=
      if ¬ s0.lastSentTTSEvent then
        { sendVia s0 (.ttsPlaying true) with lastSentTTSEvent := true }
      else s0
    let s2 := { s1 with isPlayingAudio := true, isPlaying := true }
    let p := dequeueChunks s2.audioBuffer 0
    let s3 := { s2 with audioBuffer := p.2 }
    startSource s3 p.1.flatten

/-- Total queued sample count (`reduce((acc, chunk) => acc + chunk.length, 0)`). -/
def sumLen (l : List (List ℚ)) : Nat := (l.map List.length).sum

/-- `processAudioChunk(payload)`: decode, resample if the declared backend
rate differs from the local rate, enqueue, and tick the scheduler once the
buffered total reaches the threshold.  Decode failure is caught and the
chunk dropped. -/
def processAudioChunk (payload : String) (s : St) : St :=
  let s0 := { s with audioContext := true }
  match base64ToPCM16Data payload with
  | none => s0
  | some pcm =>
    let f := convertPCMDataToFloat32 pcm
    let rightSampled :=
      if s0.backendSampleRate = SAMPLE_RATE then f
      else resampleAudio f s0.backendSampleRate SAMPLE_RATE
    let s1 := { s0 with audioBuffer := s0.audioBuffer ++ [rightSampled] }
    if bufferSize ≤ sumLen s1.audioBuffer then playNextChunk s1 else s1

/-- `message.event === 'media' && message.media?.payload` (an empty
payload string is falsy in JS). -/
def isMediaWithPayload (m : InMsg) : Bool :=
  m.event = "media" &&
    (match m.payload with
     | some p => p ≠ ""
     | none => false)

/-- `processAudioMessage`: dispatch one parsed inbound frame. -/
def processAudioMessage (m : InMsg) (s : St) : St :=
  if isMediaWithPayload m then
    let s0 := { s with chunkReceived := true,
                       backendSampleRate := m.sample_rate.getD SAMPLE_RATE }
    processAudioChunk (m.payload.getD "") s0
  else if m.event = "barge" ∨ m.event = "BARGE" then
    { s with audioBuffer := [] }
  else if m.event = "EOC" then
    sendVia s .eoc
  else if m.event = "stop" then
    if s.websocket.bind (getPhase s.phases) = some WsPhase.opened then
      { s with isStopReceived := true }
    else s
  else s

/-- The `source.onended` handler: chain to the next tick, or on full drain
send `TTS_PLAYING:false` and, if a stop frame is pending, close the
socket from this side. -/
def sourceEnded (s : St) : St :=
  let s0 := { s with isPlayingAudio := false }
  if s0.audioBuffer ≠ [] then playNextChunk s0
  else
    let s1 := { s0 with isPlaying := false }
    let s2 := sendVia s1 (.ttsPlaying false)
    let s3 := { s2 with lastSentTTSEvent := false }
    if s3.isStopReceived then
      match s3.websocket with
      | some i => closeWs s3 i
      | none => s3
    else s3

/-! ## Connection lifecycle (useWebVoice.ts) -/

/-- `setupAudioStream`: no-op when nodes are already connected; otherwise
acquire the capture device (`gumOk` is the environment's getUserMedia
outcome).  On failure the exception is surfaced via `onException` and
rethrown (first component `false`). -/
def setupAudioStream (gumOk : Bool) (s : St) : Bool × St :=
  if s.isAudioNodesConnected then (true, s)
  else if gumOk then
    (true, { s with stream := true,
                    audioContext := true,
                    analyzer := true,
                    isAudioNodesConnected := true })
  else (false, { s with onExceptionCount := s.onExceptionCount + 1 })

/-- `startProcessing`: no-op without a stream; on worklet load failure the
error is logged and surfaced but not rethrown. -/
def startProcessing (workletOk : Bool) (s : St) : St :=
  if ¬ s.stream then s
  else if workletOk then
    { s with audioContext := true, workletAttached := true }
  else { s with onExceptionCount := s.onExceptionCount + 1 }

/-- The `ws.onopen` handler of socket `i` (the async body runs to the
first failed await): set `isConnected`, acquire capture, start the
worklet, send the start frame. -/
def wsOpenEv (i : Nat) (gumOk workletOk : Bool) (s : St) : St :=
  let s0 := { s with phases := setPhase s.phases i .opened }
  if s0.isCleanedUp then closeWs s0 i
  else
    let s1 := { s0 with isConnected := true }
    let p := setupAudioStream gumOk s1
    if p.1 then
      let s2 := startProcessing workletOk p.2
      { s2 with sent := s2.sent ++ [(i, .start)] }
    else p.2

/-- The `ws.onmessage` handler (identical for every socket; it consults
only the shared refs, never the identity of the socket that fired). -/
def wsMessageEv (m : InMsg) (s : St) : St :=
  if s.isCleanedUp then s else processAudioMessage m s

/-- The `ws.onclose` handler of socket `i`: special-case the expired-link
reason, run `cleanup('server')` unless already cleaned up, then
`stopProcessing()` unconditionally. -/
def wsCloseEv (i : Nat) (reason : String) (s : St) : St :=
  let s0 := { s with phases := setPhase s.phases i .closedWs }
  let s1 :=
    if reason = "LINK_EXPIRED" then { s0 with reloadRequested := true } else s0
  let s2 := if ¬ s1.isCleanedUp then cleanup .server s1 else s1
  stopProcessing s2

/-- The `ws.onerror` handler: surface the error, then run
`cleanup('server')` unless already cleaned up. -/
def wsErrorEv (s : St) : St :=
  let s0 := { s with onExceptionCount := s.onExceptionCount + 1 }
  if ¬ s0.isCleanedUp then cleanup .server s0 else s0

/-- `connect()`: guarded against a live socket, a torn-down hook and an
already-connected hook; otherwise create a fresh WebSocket handle. -/
def connectEv (s : St) : St :=
  if s.websocket ≠ none ∨ s.isCleanedUp ∨ s.isConnected then s
  else
    let s1 := { s with isCleanedUp := false, isFirstChunk := true }
    { s1 with websocket := some s1.nextId,
              phases := s1.phases ++ [(s1.nextId, .connecting)],
              nextId := s1.nextId + 1 }

/-- `disconnect()`. -/
def disconnectEv (s : St) : St := cleanup .client s

/-- `reconnect()`: force-close any existing socket, reset every
per-connection flag and resource, then create a fresh WebSocket handle. -/
def reconnectEv (s : St) : St :=
  let s1 :=
    match s.websocket with
    | some i => { closeWs s i with websocket := none }
    | none => s
  let s2 := { s1 with isCleanedUp := false,
                      isFirstChunk := true,
                      isPlayingRef := false,
                      isAudioNodesConnected := false,
                      isPlayingAudio := false,
                      isStopReceived := false,
                      isConnected := false,
                      isPlaying := false,
                      audioBuffer := [],
                      audioContext := false,
                      sourceNode := false,
                      analyzer := false,
                      stream := false,
                      workletAttached := false }
  { s2 with websocket := some s2.nextId,
            phases := s2.phases ++ [(s2.nextId, .connecting)],
            nextId := s2.nextId + 1 }

/-- External events driving the hook: the exposed control surface plus
the transport, capture and output-device callbacks. -/
inductive Ev
  | connect
  | disconnect
  | reconnect
  | wsOpen (i : Nat) (gumOk workletOk : Bool)
  | wsMessage (m : InMsg)
  | wsClose (i : Nat) (reason : String)
  | wsError (i : Nat)
  | sourceEnded
deriving DecidableEq

/-- One step of the hook's single-threaded event loop. -/
def stepEv : Ev → St → St
  | .connect, s => connectEv s
  | .disconnect, s => disconnectEv s
  | .reconnect, s => reconnectEv s
  | .wsOpen i g w, s => wsOpenEv i g w s
  | .wsMessage m, s => wsMessageEv m s
  | .wsClose i r, s => wsCloseEv i r s
  | .wsError _, s => wsErrorEv s
  | .sourceEnded, s => sourceEnded s

/-- Run a list of events in delivery order. -/
def run (evs : List Ev) (s : St) : St := evs.foldl (fun s e => stepEv e s) s

/-- Process a list of inbound messages in delivery order. -/
def runMsgs (ms : List InMsg) (s : St) : St :=
  ms.foldl (fun s m => processAudioMessage m s) s

/-! ## Teardown idempotence lemmas -/

/-- The events that request teardown: manual disconnect, transport close,
transport error. -/
def isTeardownSignal : Ev → Bool
  | .disconnect => true
  | .wsClose _ _ => true
  | .wsError _ => true
  | _ => false

/-- `cleanup` on an already-cleaned state is the identity. -/
theorem cleanup_cleaned (src : CloseSrc) (s : St) (h : s.isCleanedUp = true) :
    cleanup src s = s := by
  simp [cleanup, h]

/-- After `cleanup` the torn-down marker is always set. -/
theorem cleanup_isCleanedUp (src : CloseSrc) (s : St) :
    (cleanup src s).isCleanedUp = true := by
  by_cases h : s.isCleanedUp = true
  · simp [cleanup, h]
  · rw [Bool.not_eq_true] at h
    simp only [cleanup, h, stopProcessing, Bool.false_eq_true, if_false]
    cases hw : s.websocket with
    | none => simp
    | some i => dsimp only; split <;> simp [closeWs]

/-- `cleanup` increments the teardown counter exactly when the marker was
not yet set. -/
theorem cleanup_teardownCount (src : CloseSrc) (s : St) :
    (cleanup src s).teardownCount =
      if s.isCleanedUp then s.teardownCount else s.teardownCount + 1 := by
  by_cases h : s.isCleanedUp = true
  · simp [cleanup, h]
  · rw [Bool.not_eq_true] at h
    simp only [cleanup, h, stopProcessing, Bool.false_eq_true, if_false]
    cases hw : s.websocket with
    | none => simp
    | some i => dsimp only; split <;> simp [closeWs]

/-- `cleanup` appends one `onClose` notification exactly when the marker
was not yet set. -/
theorem cleanup_onCloseEvents (src : CloseSrc) (s : St) :
    (cleanup src s).onCloseEvents =
      if s.isCleanedUp then s.onCloseEvents else s.onCloseEvents ++ [src] := by
  by_cases h : s.isCleanedUp = true
  · simp [cleanup, h]
  · rw [Bool.not_eq_true] at h
    simp only [cleanup, h, stopProcessing, Bool.false_eq_true, if_false]
    cases hw : s.websocket with
    | none => simp
    | some i => dsimp only; split <;> simp [closeWs]

/-- A teardown signal arriving after teardown changes neither the
teardown counter nor the `onClose` log, and the marker stays set. -/
theorem step_signal_cleaned (e : Ev) (s : St) (h : s.isCleanedUp = true)
    (he : isTeardownSignal e = true) :
    (stepEv e s).isCleanedUp = true ∧
      (stepEv e s).teardownCount = s.teardownCount ∧
      (stepEv e s).onCloseEvents = s.onCloseEvents := by
  cases e with
  | disconnect => simp [stepEv, disconnectEv, cleanup_cleaned _ _ h, h]
  | wsClose i r =>
    simp only [stepEv, wsCloseEv, stopProcessing]
    split <;> simp [h]
  | wsError i => simp [stepEv, wsErrorEv, h]
  | _ => simp [isTeardownSignal] at he

/-- The first teardown signal on a fresh state performs the teardown:
counter and `onClose` log grow by exactly one and the marker is set. -/
theorem step_signal_fresh (e : Ev) (s : St) (h : s.isCleanedUp = false)
    (he : isTeardownSignal e = true) :
    (stepEv e s).isCleanedUp = true ∧
      (stepEv e s).teardownCount = s.teardownCount + 1 ∧
      (stepEv e s).onCloseEvents.length = s.onCloseEvents.length + 1 := by
  cases e with
  | disconnect =>
    simp [stepEv, disconnectEv, cleanup_isCleanedUp, cleanup_teardownCount,
      cleanup_onCloseEvents, h]
  | wsClose i r =>
    simp only [stepEv, wsCloseEv, stopProcessing]
    split <;>
      simp [cleanup_isCleanedUp, cleanup_teardownCount, cleanup_onCloseEvents, h]
  | wsError i =>
    simp [stepEv, wsErrorEv, cleanup_isCleanedUp, cleanup_teardownCount,
      cleanup_onCloseEvents, h]
  | _ => simp [isTeardownSignal] at he

/-- Unfolding one step of `run`. -/
theorem run_cons (e : Ev) (evs : List Ev) (s : St) :
    run (e :: evs) s = run evs (stepEv e s) := rfl

/-- After teardown, any further sequence of teardown signals is inert. -/
theorem run_signals_cleaned (evs : List Ev) (s : St) (h : s.isCleanedUp = true)
    (hs : ∀ e ∈ evs, isTeardownSignal e = true) :
    (run evs s).isCleanedUp = true ∧
      (run evs s).teardownCount = s.teardownCount ∧
      (run evs s).onCloseEvents = s.onCloseEvents := by
  induction evs generalizing s with
  | nil => simp [run, h]
  | cons e rest ih =>
    have he := hs e (by simp)
    obtain ⟨h1, h2, h3⟩ := step_signal_cleaned e s h he
    obtain ⟨g1, g2, g3⟩ := ih (stepEv e s) h1 (fun e' he' => hs e' (by simp [he']))
    rw [run_cons]
    exact ⟨g1, by rw [g2, h2], by rw [g3, h3]⟩

/-! ## Claim C1 -/

/-- C1: for every connection attempt, no matter how many teardown signals
arrive (repeated `disconnect()`, the transport's own close or error
callbacks, in any order), the teardown body runs exactly once and exactly
one `onClose` notification is emitted — enforced by the `isCleanedUp`
marker. -/
theorem c1_teardown_exactly_once (s : St) (evs : List Ev)
    (h : s.isCleanedUp = false) (hne : evs ≠ [])
    (hs : ∀ e ∈ evs, isTeardownSignal e = true) :
    (run evs s).teardownCount = s.teardownCount + 1 ∧
      (run evs s).onCloseEvents.length = s.onCloseEvents.length + 1 := by
  cases evs with
  | nil => exact absurd rfl hne
  | cons e rest =>
    obtain ⟨h1, h2, h3⟩ := step_signal_fresh e s h (hs e (by simp))
    obtain ⟨g1, g2, g3⟩ :=
      run_signals_cleaned rest (stepEv e s) h1 (fun e' he' => hs e' (by simp [he']))
    rw [run_cons]
    exact ⟨by rw [g2, h2], by rw [g3, h3]⟩

/-- C1 witness: two consecutive `disconnect()` calls on a fresh hook give
one teardown and one `onClose`. -/
theorem c1_witness :
    (run [Ev.disconnect, Ev.disconnect] stInit).teardownCount =
        stInit.teardownCount + 1 ∧
      (run [Ev.disconnect, Ev.disconnect] stInit).onCloseEvents.length =
        stInit.onCloseEvents.length + 1 :=
  c1_teardown_exactly_once stInit [Ev.disconnect, Ev.disconnect] rfl
    (by decide) (by decide)

/-! ## Claim C10 -/

/-- C10: once teardown has run (the `isCleanedUp` marker is set), every
subsequent `connect()` returns immediately, creating no transport and
leaving the entire hook state unchanged; `reconnect()` alone clears the
marker and establishes a fresh transport handle. -/
theorem c10_connect_inert_after_teardown (s : St) (h : s.isCleanedUp = true) :
    stepEv .connect s = s ∧
      (stepEv .reconnect s).isCleanedUp = false ∧
      (stepEv .reconnect s).websocket = some s.nextId := by
  refine ⟨by simp [stepEv, connectEv, h], ?_, ?_⟩ <;>
    cases hw : s.websocket <;> simp [stepEv, reconnectEv, hw, closeWs]

/-- C10 witness: on a concrete torn-down state, `connect()` is the
identity while `reconnect()` clears the marker and creates socket 1. -/
theorem c10_witness :
    stepEv .connect { stInit with isCleanedUp := true } =
        { stInit with isCleanedUp := true } ∧
      (stepEv .reconnect { stInit with isCleanedUp := true }).isCleanedUp = false ∧
      (stepEv .reconnect { stInit with isCleanedUp := true }).websocket =
        some ({ stInit with isCleanedUp := true } : St).nextId :=
  c10_connect_inert_after_teardown { stInit with isCleanedUp := true } rfl

/-! ## Claim C3 -/

/-- C3 counterexample: the claim "tick() on an empty queue returns a
silence Emission whose sample count equals the configured buffer duration
(1 second at the local playback rate, 44100 samples)" is FALSE on the
code: at the default backend sample rate 44100, the scheduler's
empty-queue branch computes
`Math.floor(backendSampleRate * BUFFER_DURATION * 2)` = 88200 samples of
silence (two seconds at the local rate), not 44100. -/
theorem c3_tick_counterexample :
    (playNextChunk stInit).emissions.map List.length = [88200] ∧
      88200 ≠ SAMPLE_RATE * CHANNELS * BUFFER_DURATION := by
  constructor
  · have h : ∀ (s : St), s.audioBuffer = [] → s.isPlayingAudio = false →
        (playNextChunk s).emissions.map List.length =
          s.emissions.map List.length ++
            [s.backendSampleRate * BUFFER_DURATION * 2] := by
      intro s hq hp
      cases hw : s.websocket <;>
        simp [playNextChunk, hq, hp, hw, sendVia, startSource]
    rw [h stInit rfl rfl]
    decide
  · decide

/-- C3 (amended): `tick()` on an empty queue (with no emission in flight)
always succeeds — it is a total function — and emits a silence Emission
of exactly `backendSampleRate * BUFFER_DURATION * 2` samples (2 seconds
at the backend rate, rather than the 1-second buffer duration at the
local rate), transitioning the playing flag to false. -/
theorem c3_tick_empty_silence (s : St)
    (hq : s.audioBuffer = []) (hp : s.isPlayingAudio = false) :
    (playNextChunk s).emissions =
        s.emissions ++
          [List.replicate (s.backendSampleRate * BUFFER_DURATION * 2) 0] ∧
      (playNextChunk s).isPlaying = false := by
  cases hw : s.websocket <;>
    simp [playNextChunk, hq, hp, hw, sendVia, startSource]

/-- C3 witness: the amended statement at the initial state. -/
theorem c3_witness :
    (playNextChunk stInit).emissions =
        stInit.emissions ++
          [List.replicate (stInit.backendSampleRate * BUFFER_DURATION * 2) 0] ∧
      (playNextChunk stInit).isPlaying = false :=
  c3_tick_empty_silence stInit rfl rfl

/-! ## Claim C2 -/

/-- The state reached by `connect()` followed by the transport opening
with a failing capture-device acquisition. -/
def c2state : St := run [Ev.connect, Ev.wsOpen 1 false true] stInit

/-- C2 counterexample: the claim "if getUserMedia fails during a connect
attempt ... the connection never transitions to Open: isConnected never
becomes true for that attempt" is FALSE on the code: `ws.onopen` calls
`setIsConnected(true)` before `await setupAudioStream()`, so after a
failing acquisition the hook reports `isConnected = true` even though the
exception was surfaced via `onException`. -/
theorem c2_counterexample :
    c2state.isConnected = true ∧ c2state.onExceptionCount = 1 := by
  refine ⟨by decide, by decide⟩

/-- C2 (amended): if capture-device acquisition fails during a connect
attempt, the exception is surfaced to the caller via the
error-notification callback and the rest of the open sequence is aborted
(no start frame is sent, capture processing never starts, no capture
stream is retained) — but `isConnected` has already been set to true when
the transport opened, and stays true. -/
theorem c2_gum_failure_aborts (s : St) (i : Nat) (w : Bool)
    (hc : s.isCleanedUp = false) (hn : s.isAudioNodesConnected = false) :
    (stepEv (.wsOpen i false w) s).onExceptionCount = s.onExceptionCount + 1 ∧
      (stepEv (.wsOpen i false w) s).isConnected = true ∧
      (stepEv (.wsOpen i false w) s).sent = s.sent ∧
      (stepEv (.wsOpen i false w) s).workletAttached = s.workletAttached ∧
      (stepEv (.wsOpen i false w) s).stream = s.stream := by
  simp [stepEv, wsOpenEv, setupAudioStream, hc, hn]

/-- C2 witness: the amended statement on the concrete post-`connect()`
state. -/
theorem c2_witness :
    (stepEv (.wsOpen 1 false true) (stepEv .connect stInit)).onExceptionCount =
        (stepEv .connect stInit).onExceptionCount + 1 ∧
      (stepEv (.wsOpen 1 false true) (stepEv .connect stInit)).isConnected = true ∧
      (stepEv (.wsOpen 1 false true) (stepEv .connect stInit)).sent =
        (stepEv .connect stInit).sent ∧
      (stepEv (.wsOpen 1 false true) (stepEv .connect stInit)).workletAttached =
        (stepEv .connect stInit).workletAttached ∧
      (stepEv (.wsOpen 1 false true) (stepEv .connect stInit)).stream =
        (stepEv .connect stInit).stream :=
  c2_gum_failure_aborts (stepEv .connect stInit) 1 true (by decide) (by decide)

/-! ## Claim C9 -/

/-- The state after: `connect()`; the transport opens successfully;
`reconnect()` (which closes socket 1 and creates socket 2); then the
superseded socket 1's close event is finally delivered. -/
def c9state : St :=
  run [Ev.connect, Ev.wsOpen 1 true true, Ev.reconnect, Ev.wsClose 1 ""] stInit

/-- C9: the claim "close or error events later delivered for the
superseded prior transport never tear down the new connection" is FALSE
on the code: `reconnect()` resets the `isCleanedUp` marker before the old
socket's close event arrives, so that event's handler passes the
`!isCleanedUp` guard and runs `cleanup('server')`, which closes the NEW
socket (id 2, still connecting), nulls the transport ref, tears down the
fresh connection's resources and emits an `onClose('server')`
notification.  This theorem evaluates the code on that trace. -/
theorem c9_stale_close_kills_new_connection :
    c9state.websocket = none ∧ c9state.isCleanedUp = true ∧
      c9state.closeCalls = [1, 2] ∧
      c9state.onCloseEvents = [CloseSrc.server] ∧
      c9state.teardownCount = 1 := by
  refine ⟨by decide, by decide, by decide, by decide, by decide⟩

/-! ## Claim C7 -/

/-- The inbound barge frame. -/
def bargeMsg : InMsg := { event := "barge" }

/-- A concrete live state: socket 1 open, one queued chunk, the
`TTS_PLAYING:true` notice already sent. -/
def c7state : St :=
  { stInit with websocket := some 1,
                phases := [(1, WsPhase.opened)],
                isConnected := true,
                lastSentTTSEvent := true,
                audioBuffer := [[1]] }

/-- C7 counterexample: the claim "processing an inbound barge frame ...
signals the transport that playback has stopped (sends a
TTS_PLAYING-false frame) as part of the barge() operation" is FALSE on
the code: the barge branch only clears the queue and sends nothing, even
on a live, playing connection. -/
theorem c7_counterexample :
    (processAudioMessage bargeMsg c7state).sent = c7state.sent ∧
      (processAudioMessage bargeMsg c7state).audioBuffer = [] := by
  refine ⟨by decide, by decide⟩

/-- C7 (amended): processing an inbound barge frame clears the playback
queue but sends no frame itself; the playback-stopped notice
(`TTS_PLAYING:false`) is emitted only later, by the next run of the
playback scheduler on the emptied queue (or by the in-flight emission's
completion handler), not as part of the barge handling. -/
theorem c7_barge_clears_without_notice (s : St) :
    (processAudioMessage bargeMsg s).sent = s.sent ∧
      (processAudioMessage bargeMsg s).audioBuffer = [] ∧
      (∀ i, s.websocket = some i → s.isPlayingAudio = false →
        (playNextChunk (processAudioMessage bargeMsg s)).sent =
          s.sent ++ [(i, OutFrame.ttsPlaying false)]) := by
  have hb : processAudioMessage bargeMsg s = { s with audioBuffer := [] } := by
    simp [processAudioMessage, isMediaWithPayload, bargeMsg]
  refine ⟨by rw [hb], by rw [hb], ?_⟩
  intro i hi hp
  rw [hb]
  simp [playNextChunk, sendVia, hi, hp, startSource]

/-- C7 witness: the amended statement on the concrete live state. -/
theorem c7_witness :
    (playNextChunk (processAudioMessage bargeMsg c7state)).sent =
      c7state.sent ++ [(1, OutFrame.ttsPlaying false)] :=
  (c7_barge_clears_without_notice c7state).2.2 1 rfl rfl

/-! ## Playback-path helper lemmas -/

/-- `sendVia` only appends to the sent log. -/
theorem sendVia_audioBuffer (s : St) (f : OutFrame) :
    (sendVia s f).audioBuffer = s.audioBuffer := by
  cases hw : s.websocket <;> simp [sendVia, hw]

/-- `sendVia` never calls `close`. -/
theorem sendVia_closeCalls (s : St) (f : OutFrame) :
    (sendVia s f).closeCalls = s.closeCalls := by
  cases hw : s.websocket <;> simp [sendVia, hw]

/-- The playback scheduler never closes the transport. -/
theorem playNextChunk_closeCalls (s : St) :
    (playNextChunk s).closeCalls = s.closeCalls := by
  unfold playNextChunk startSource
  dsimp only
  split
  · rfl
  · split
    · simp [sendVia_closeCalls]
    · split <;> simp [sendVia_closeCalls]

/-- Processing an inbound media chunk never closes the transport. -/
theorem processAudioChunk_closeCalls (p : String) (s : St) :
    (processAudioChunk p s).closeCalls = s.closeCalls := by
  unfold processAudioChunk
  cases hpc : base64ToPCM16Data p with
  | none => rfl
  | some pcm =>
    dsimp only
    split <;> split <;>
      first
      | exact playNextChunk_closeCalls _
      | rfl

/-- Dispatching any inbound frame never closes the transport. -/
theorem processAudioMessage_closeCalls (m : InMsg) (s : St) :
    (processAudioMessage m s).closeCalls = s.closeCalls := by
  unfold processAudioMessage
  repeat' split
  all_goals
    first
    | rfl
    | exact processAudioChunk_closeCalls _ _
    | exact sendVia_closeCalls _ _

/-- Appending an element changes a list. -/
theorem list_append_singleton_ne (l : List Nat) (x : Nat) : l ++ [x] ≠ l := by
  intro h
  simpa using congrArg List.length h

/-! ## Claim C8 -/

/-- The events of the playback/message subsystem: inbound frames and the
output device's buffer-finished callback. -/
def isPlaybackEv : Ev → Bool
  | .wsMessage _ => true
  | .sourceEnded => true
  | _ => false

/-- C8: during message processing and playback, the client closes the
transport if and only if the current emission finishes with the queue
fully drained, a stop frame pending, and a live transport ref — i.e.
never before the queue has drained, and always at the drain transition
once stop was received; at that same step the playing flag and the
`TTS_PLAYING` latch transition to false. -/
theorem c8_stop_close_only_after_drain (s : St) (ev : Ev)
    (hev : isPlaybackEv ev = true) :
    ((stepEv ev s).closeCalls ≠ s.closeCalls ↔
      (ev = Ev.sourceEnded ∧ s.audioBuffer = [] ∧ s.isStopReceived = true ∧
        s.websocket ≠ none)) ∧
    (ev = Ev.sourceEnded → s.audioBuffer = [] →
      (stepEv ev s).isPlaying = false ∧
        (stepEv ev s).lastSentTTSEvent = false) := by
  cases ev with
  | wsMessage m =>
    have hcc : (stepEv (Ev.wsMessage m) s).closeCalls = s.closeCalls := by
      show (wsMessageEv m s).closeCalls = s.closeCalls
      unfold wsMessageEv
      split
      · rfl
      · exact processAudioMessage_closeCalls _ _
    exact ⟨by simp [hcc], by intro h; cases h⟩
  | sourceEnded =>
    constructor
    · by_cases hq : s.audioBuffer = []
      · by_cases hst : s.isStopReceived = true
        · cases hw : s.websocket with
          | none =>
            have hcc : (stepEv Ev.sourceEnded s).closeCalls = s.closeCalls := by
              show (sourceEnded s).closeCalls = s.closeCalls
              unfold sourceEnded
              simp [hq, hst, hw, sendVia]
            simp [hcc, hw]
          | some i =>
            have hcc : (stepEv Ev.sourceEnded s).closeCalls =
                s.closeCalls ++ [i] := by
              show (sourceEnded s).closeCalls = s.closeCalls ++ [i]
              unfold sourceEnded
              simp [hq, hst, hw, sendVia, closeWs]
            simp [hcc, hq, hst, hw, list_append_singleton_ne]
        · rw [Bool.not_eq_true] at hst
          have hcc : (stepEv Ev.sourceEnded s).closeCalls = s.closeCalls := by
            show (sourceEnded s).closeCalls = s.closeCalls
            unfold sourceEnded
            cases hw : s.websocket <;> simp [hq, hst, hw, sendVia]
          simp [hcc, hst]
      · have hcc : (stepEv Ev.sourceEnded s).closeCalls = s.closeCalls := by
          show (sourceEnded s).closeCalls = s.closeCalls
          unfold sourceEnded
          dsimp only
          rw [if_pos (by simpa using hq)]
          exact playNextChunk_closeCalls _
        simp [hcc, hq]
    · intro _ hq
      show (sourceEnded s).isPlaying = false ∧
        (sourceEnded s).lastSentTTSEvent = false
      unfold sourceEnded
      by_cases hst : s.isStopReceived = true
      · cases hw : s.websocket <;> simp [hq, hst, hw, sendVia, closeWs]
      · rw [Bool.not_eq_true] at hst
        cases hw : s.websocket <;> simp [hq, hst, hw, sendVia]
  | _ => simp [isPlaybackEv] at hev

/-- A concrete drain state: socket 1 open, stop pending, queue empty. -/
def c8state : St :=
  { stInit with websocket := some 1,
                phases := [(1, WsPhase.opened)],
                isStopReceived := true }

/-- C8 witness: on the concrete drain state, the emission-finished
callback does close the transport. -/
theorem c8_witness :
    (stepEv Ev.sourceEnded c8state).closeCalls ≠ c8state.closeCalls :=
  (c8_stop_close_only_after_drain c8state Ev.sourceEnded rfl).1.mpr
    ⟨rfl, rfl, rfl, by decide⟩

/-! ## Queue-content helper lemmas -/

/-- The chunks left in the queue by the dequeue loop all come from the
input queue. -/
theorem dequeueChunks_rest_mem (l : List (List ℚ)) (t : Nat) :
    ∀ c ∈ (dequeueChunks l t).2, c ∈ l := by
  induction l generalizing t with
  | nil => intro c hc; simp [dequeueChunks] at hc
  | cons a rest ih =>
    intro c hc
    unfold dequeueChunks at hc
    by_cases ht : t < bufferSize
    · rw [if_pos ht] at hc
      dsimp only at hc
      exact List.mem_cons_of_mem a (ih _ c hc)
    · rw [if_neg ht] at hc
      exact hc

/-- The playback scheduler only removes chunks from the queue. -/
theorem playNextChunk_buffer_mem (s : St) :
    ∀ c ∈ (playNextChunk s).audioBuffer, c ∈ s.audioBuffer := by
  intro c hc
  unfold playNextChunk startSource at hc
  dsimp only at hc
  split at hc
  · exact hc
  · split at hc
    · simp only [sendVia_audioBuffer] at hc
      exact hc
    · split at hc <;>
      · simp only [sendVia_audioBuffer] at hc
        exact dequeueChunks_rest_mem _ _ c hc

/-- The decoded queue entry that a media message produces — determined by
the message alone, since `backendSampleRate` is first set from the
message's declared rate. -/
def mediaChunkOf (m : InMsg) : Option (List ℚ) :=
  if isMediaWithPayload m then
    (base64ToPCM16Data (m.payload.getD "")).map fun pcm =>
      if m.sample_rate.getD SAMPLE_RATE = SAMPLE_RATE then
        convertPCMDataToFloat32 pcm
      else
        resampleAudio (convertPCMDataToFloat32 pcm)
          (m.sample_rate.getD SAMPLE_RATE) SAMPLE_RATE
  else none

/-- After dispatching one inbound frame, every chunk in the queue either
was already queued or is the decoding of that frame's media payload. -/
theorem processAudioMessage_buffer_cases (m : InMsg) (s : St) :
    ∀ c ∈ (processAudioMessage m s).audioBuffer,
      c ∈ s.audioBuffer ∨ mediaChunkOf m = some c := by
  intro c hc
  unfold processAudioMessage at hc
  split at hc
  · -- media branch
    rename_i hmed
    unfold processAudioChunk at hc
    cases hpc : base64ToPCM16Data (m.payload.getD "") with
    | none => rw [hpc] at hc; exact Or.inl hc
    | some pcm =>
      rw [hpc] at hc
      dsimp only at hc
      rw [mediaChunkOf, if_pos hmed, hpc]
      simp only [Option.map_some', Option.some.injEq]
      split at hc <;> rename_i hrate
      · -- declared rate equals the local rate: no resampling
        have hmem : c ∈ s.audioBuffer ++ [convertPCMDataToFloat32 pcm] := by
          split at hc
          · simpa using playNextChunk_buffer_mem _ c hc
          · simpa using hc
        rcases List.mem_append.1 hmem with hin | hnew
        · exact Or.inl hin
        · refine Or.inr ?_
          rw [if_pos hrate]
          exact (List.mem_singleton.1 hnew).symm
      · -- resampling path
        have hmem : c ∈ s.audioBuffer ++
            [resampleAudio (convertPCMDataToFloat32 pcm)
              (m.sample_rate.getD SAMPLE_RATE) SAMPLE_RATE] := by
          split at hc
          · simpa using playNextChunk_buffer_mem _ c hc
          · simpa using hc
        rcases List.mem_append.1 hmem with hin | hnew
        · exact Or.inl hin
        · refine Or.inr ?_
          rw [if_neg hrate]
          exact (List.mem_singleton.1 hnew).symm
  · split at hc
    · -- barge branch
      exact absurd hc (by simp)
    · split at hc
      · -- EOC branch
        rw [sendVia_audioBuffer] at hc
        exact Or.inl hc
      · split at hc
        · -- stop branch
          split at hc <;> exact Or.inl hc
        · exact Or.inl hc

/-- Processing a message list from a queue whose chunks satisfy `S` keeps
every queued chunk either `S` or the decoding of one of the messages. -/
theorem runMsgs_buffer_mem (ms : List InMsg) (s : St) :
    ∀ c ∈ (runMsgs ms s).audioBuffer,
      c ∈ s.audioBuffer ∨ ∃ m ∈ ms, mediaChunkOf m = some c := by
  induction ms generalizing s with
  | nil => intro c hc; exact Or.inl hc
  | cons m rest ih =>
    intro c hc
    have hstep : runMsgs (m :: rest) s = runMsgs rest (processAudioMessage m s) :=
      rfl
    rw [hstep] at hc
    rcases ih (processAudioMessage m s) c hc with hin | ⟨m', hm', hdec⟩
    · rcases processAudioMessage_buffer_cases m s c hin with h1 | h2
      · exact Or.inl h1
      · exact Or.inr ⟨m, by simp, h2⟩
    · exact Or.inr ⟨m', by simp [hm'], hdec⟩

/-! ## Claim C6 -/

/-- C6: for every queue state, processing an inbound barge frame leaves
the playback queue empty with a total queued sample count of 0, and after
any sequence of further inbound frames every chunk in the queue is the
decoding of one of the post-barge media frames — pre-barge and post-barge
audio never mix. -/
theorem c6_barge_isolation (s : St) (ms : List InMsg) :
    (processAudioMessage bargeMsg s).audioBuffer = [] ∧
      sumLen (processAudioMessage bargeMsg s).audioBuffer = 0 ∧
      (∀ c ∈ (runMsgs ms (processAudioMessage bargeMsg s)).audioBuffer,
        ∃ m ∈ ms, mediaChunkOf m = some c) := by
  have hb : processAudioMessage bargeMsg s = { s with audioBuffer := [] } := by
    simp [processAudioMessage, isMediaWithPayload, bargeMsg]
  refine ⟨by rw [hb], by rw [hb]; rfl, ?_⟩
  intro c hc
  rcases runMsgs_buffer_mem ms (processAudioMessage bargeMsg s) c hc with hin | h
  · rw [hb] at hin
    simp at hin
  · exact h

/-- A media frame carrying two zero bytes (one zero PCM16 sample). -/
def mediaA : InMsg := { event := "media", payload := some "AAA=" }

/-- C6 witness: after a barge on a state with a queued pre-barge chunk,
the queue is empty; and the chunk then queued by a concrete media frame
is exactly that frame's decoding. -/
theorem c6_witness :
    (processAudioMessage bargeMsg { stInit with audioBuffer := [[1]] }).audioBuffer
        = [] ∧
      (∃ m ∈ [mediaA], mediaChunkOf m = some ([0] : List ℚ)) :=
  ⟨(c6_barge_isolation { stInit with audioBuffer := [[1]] } [mediaA]).1,
   (c6_barge_isolation { stInit with audioBuffer := [[1]] } [mediaA]).2.2
     ([0] : List ℚ) (by
      have hb : processAudioMessage bargeMsg { stInit with audioBuffer := [[1]] } =
          { stInit with audioBuffer := ([] : List (List ℚ)) } := by
        simp [processAudioMessage, isMediaWithPayload, bargeMsg]
      show ([0] : List ℚ) ∈
        (runMsgs [mediaA]
          (processAudioMessage bargeMsg
            { stInit with audioBuffer := [[1]] })).audioBuffer
      rw [hb]
      show ([0] : List ℚ) ∈
        (processAudioMessage mediaA
          { stInit with audioBuffer := ([] : List (List ℚ)) }).audioBuffer
      have hdec : base64ToPCM16Data "AAA=" = some [0] := by decide
      simp [processAudioMessage, isMediaWithPayload, mediaA, processAudioChunk,
        hdec, convertPCMDataToFloat32, convertPCMDataToFloat321, sumLen,
        bufferSize, SAMPLE_RATE, CHANNELS, BUFFER_DURATION])⟩
